import Mathlib

/-!
Verification development for the screen-recorder browser extension.

The embedding covers the three cores of the program:

* the recording session manager (`src/background/recording-manager.js`,
  class `RecordingManager`): session registry, start/pause/resume/stop,
  cursor-event timestamping and sealing of the project timeline;
* the background service worker (`background/service-worker.js`,
  class `CursorFlowRecorder`): the single-session recorder with chunk
  collection and persistence of recordings;
* the storage lifecycle (`src/background/storage-manager.js` and
  `src/background/project-manager.js`): quota-gated cleanup, recent-list
  maintenance and project loading.

JavaScript clock readings (`Date.now()`) are passed as explicit `Int`
parameters; `chrome.storage.local` is modelled as an association list from
string keys to typed records.  Whenever the JS code reads a field through
`x || 0` the model gives the field a `0` default, which is observationally
identical.
-/

namespace ScreenRecorder

/-! ## Association-list model of JS `Map` and `chrome.storage.local` -/

/-- First-match lookup, as `Map.get` / `storage.local.get` on a single key. -/
def alistLookup {α : Type} : List (String × α) → String → Option α
  | [], _ => none
  | (k0, v0) :: st, k => if k0 = k then some v0 else alistLookup st k

/-- Replace-or-append update, as `Map.set` / `storage.local.set`. -/
def alistSet {α : Type} : List (String × α) → String → α → List (String × α)
  | [], k, v => [(k, v)]
  | (k0, v0) :: st, k, v =>
    if k0 = k then (k0, v) :: st else (k0, v0) :: alistSet st k v

/-- Key removal, as `Map.delete` / `storage.local.remove`. -/
def alistEraseAll {α : Type} (st : List (String × α)) (k : String) :
    List (String × α) :=
  st.filter (fun kv => kv.1 != k)

theorem alistLookup_set_self {α : Type} (st : List (String × α)) (k : String) (v : α) :
    alistLookup (alistSet st k v) k = some v := by
  induction st with
  | nil => simp [alistSet, alistLookup]
  | cons kv st ih =>
    by_cases h : kv.1 = k
    · simp [alistSet, alistLookup, h]
    · simpa only [alistSet, if_neg h, alistLookup] using ih

theorem alistLookup_set_ne {α : Type} (st : List (String × α)) (k k' : String) (v : α)
    (h : k' ≠ k) :
    alistLookup (alistSet st k v) k' = alistLookup st k' := by
  induction st with
  | nil => simp [alistSet, alistLookup, Ne.symm h]
  | cons kv st ih =>
    by_cases hk : kv.1 = k
    · subst hk
      simp only [alistSet, if_pos rfl, alistLookup]
      rw [if_neg (fun hh => h hh.symm), if_neg (fun hh => h hh.symm)]
    · simp only [alistSet, if_neg hk, alistLookup]
      by_cases hk' : kv.1 = k'
      · rw [if_pos hk', if_pos hk']
      · rw [if_neg hk', if_neg hk']
        exact ih

theorem alistEraseAll_set_self {α : Type} (st : List (String × α)) (k : String) (v : α) :
    alistEraseAll (alistSet st k v) k = alistEraseAll st k := by
  induction st with
  | nil => simp [alistSet, alistEraseAll]
  | cons kv st ih =>
    by_cases h : kv.1 = k
    · simp [alistSet, alistEraseAll, h]
    · simp only [alistSet, if_neg h, alistEraseAll, List.filter]
      have hb : (kv.1 != k) = true := by simpa using h
      simp only [hb]
      simpa [alistEraseAll] using ih

theorem alistEraseAll_of_lookup_none {α : Type} (st : List (String × α)) (k : String)
    (h : alistLookup st k = none) : alistEraseAll st k = st := by
  induction st with
  | nil => rfl
  | cons kv st ih =>
    simp only [alistLookup] at h
    by_cases hk : kv.1 = k
    · rw [if_pos hk] at h; exact absurd h (by simp)
    · rw [if_neg hk] at h
      have hb : (kv.1 != k) = true := by simpa using hk
      simp only [alistEraseAll, List.filter, hb]
      simpa [alistEraseAll] using ih h

/-! ## String helpers modelling JS string predicates

`strStartsWith s pre` models `s.startsWith(pre)`, `strContainsStr s sub`
models `s.includes(sub)`, and `strDrop s n` models `s.slice(n)` /
`s.replace(prefixOfLength n, '')` on ASCII keys. They are defined over the
character list so that concrete instances reduce with `decide`. -/

def strStartsWith (s pre : String) : Bool := pre.data.isPrefixOf s.data

/-- `needle` occurs as a contiguous run inside the second list. -/
def charListContains (needle : List Char) : List Char → Bool
  | [] => needle.isEmpty
  | c :: t => needle.isPrefixOf (c :: t) || charListContains needle t

def strContainsStr (s sub : String) : Bool := charListContains sub.data s.data

def strDrop (s : String) (n : Nat) : String := String.mk (s.data.drop n)

/-! ## Storage record store

`chrome.storage.local` as used by `StorageManager` / `ProjectManager`:
a flat key space holding project records (`project_*`), blob records
(`blob_*`), temporary entries (`temp_*` / `cache_*`), the `cleanup_stats`
counters and the `lastMaintenance` timestamp.  `bytes` is the record's
storage footprint as reported by `getBytesInUse`, modelled explicitly
(the counter records are given footprint zero). -/

/-- A persisted project record (`project_{id}` key).  `blobIds` is the list of
`blobId` references held by the project's timeline video segments. -/
structure ProjectRecord where
  id : String
  name : String
  createdAt : Int
  updatedAt : Int
  duration : Int
  savedAt : Option Int := none
  lastAccessed : Option Int := none
  thumbnail : Option String := none
  blobIds : List String := []
  bytes : Nat := 0
  deriving DecidableEq

/-- One storage record.  `blob` carries `createdAt` and its byte footprint;
`stats` is the `cleanup_stats` record; `maint` is the `lastMaintenance`
timestamp. -/
inductive SRec where
  | proj (p : ProjectRecord)
  | blob (createdAt : Int) (bytes : Nat)
  | temp (bytes : Nat)
  | stats (totalCleanups totalItemsFreed : Nat) (lastCleanup : Option Int)
  | maint (t : Int)
  deriving DecidableEq

abbrev Store := List (String × SRec)

def recBytes : SRec → Nat
  | .proj p => p.bytes
  | .blob _ b => b
  | .temp b => b
  | .stats _ _ _ => 0
  | .maint _ => 0

/-- Total bytes in use, as `chrome.storage.local.getBytesInUse(null)`. -/
def usedBytes (st : Store) : Nat := (st.map (fun kv => recBytes kv.2)).sum

/-- `Math.round((used / quota) * 100)`, computed exactly over naturals
(round-half-up, as JS `Math.round`). -/
def roundPct (used quota : Nat) : Nat := (used * 200 + quota) / (2 * quota)

/-- `removeData(keys)`: drop every listed key. -/
def removeStore (st : Store) (ks : List String) : Store :=
  st.filter (fun kv => !ks.contains kv.1)

/-- 30 days in milliseconds, the blob age limit in `cleanupStorage`. -/
def msPerThirtyDays : Int := 2592000000

/-- `StorageManager.getProjectIdsFromData`: the `id` field of every record
stored under a `project_` key. -/
def getProjectIdsFromData (st : Store) : List String :=
  st.filterMap (fun kv =>
    if strStartsWith kv.1 "project_" then
      match kv.2 with
      | .proj p => some p.id
      | _ => none
    else none)

/-- The classification loop of `StorageManager.cleanupStorage` over the blob
keys: a blob whose id (`key` minus the `blob_` prefix) is not a substring
match for any live project id is orphaned; a referenced blob with a truthy
`createdAt` older than 30 days is an old blob.  Returns
`(orphanedBlobs, oldBlobs)` in key order. -/
def classifyBlobs (st : Store) (now : Int) (projectIds : List String) :
    List String → List String × List String
  | [] => ([], [])
  | bk :: bks =>
    let rest := classifyBlobs st now projectIds bks
    let blobId := strDrop bk 5
    let isReferenced := projectIds.any (fun pid => strContainsStr blobId pid)
    if !isReferenced then (bk :: rest.1, rest.2)
    else
      match alistLookup st bk with
      | some (.blob c _) =>
        if c ≠ 0 ∧ msPerThirtyDays < now - c then (rest.1, bk :: rest.2)
        else rest
      | _ => rest

/-- `StorageManager.cleanupStorage`: remove `temp_`/`cache_` keys, remove
orphaned blobs, then — if usage is still above the 80% threshold — remove the
first half (rounded up) of the old referenced blobs, and finally update the
`cleanup_stats` record.  Returns the new store and the number of freed items. -/
def cleanupStorage (now : Int) (quota : Nat) (st : Store) : Store × Nat :=
  let tempKeys := (st.map Prod.fst).filter
    (fun k => strStartsWith k "temp_" || strStartsWith k "cache_")
  let st1 := removeStore st tempKeys
  let freed1 := tempKeys.length
  let blobKeys := (st.map Prod.fst).filter (fun k => strStartsWith k "blob_")
  let projectIds := getProjectIdsFromData st
  let cls := classifyBlobs st now projectIds blobKeys
  let orphanedBlobs := cls.1
  let oldBlobs := cls.2
  let st2 := removeStore st1 orphanedBlobs
  let freed2 := freed1 + orphanedBlobs.length
  let usageAfterOrphans := roundPct (usedBytes st2) quota
  let step3 :=
    if 80 < usageAfterOrphans then
      let blobsToRemove := oldBlobs.take ((oldBlobs.length + 1) / 2)
      (removeStore st2 blobsToRemove, freed2 + blobsToRemove.length)
    else (st2, freed2)
  let prev :=
    match alistLookup step3.1 "cleanup_stats" with
    | some (.stats a b c) => (a, b, c)
    | _ => (0, 0, none)
  (alistSet step3.1 "cleanup_stats"
      (.stats (prev.1 + 1) (prev.2.1 + step3.2) (some now)),
   step3.2)

/-- `StorageManager.performMaintenance`: run `cleanupStorage` only when usage
exceeds the `maxStorageUsage` threshold (default 80%), then rewrite the
`lastMaintenance` timestamp. -/
def performMaintenance (now : Int) (quota : Nat) (st : Store) : Store :=
  let usage := roundPct (usedBytes st) quota
  let st' := if 80 < usage then (cleanupStorage now quota st).1 else st
  alistSet st' "lastMaintenance" (.maint now)

/-- `ProjectManager.loadProject`: look the project up, stamp `lastAccessed`
with the current clock reading, write the record back, return it.  A missing
project is the `Project not found` failure. -/
def loadProject (st : Store) (projectId : String) (now : Int) :
    Except String (Store × ProjectRecord) :=
  match alistLookup st ("project_" ++ projectId) with
  | some (.proj p) =>
    let p' := { p with lastAccessed := some now }
    .ok (alistSet st ("project_" ++ projectId) (.proj p'), p')
  | _ => .error "Project not found"

/-- One entry of the `recent_projects` list. -/
structure ProjectSummary where
  id : String
  name : String
  createdAt : Int
  updatedAt : Int
  duration : Int
  thumbnail : Option String
  deriving DecidableEq

def mkProjectSummary (p : ProjectRecord) : ProjectSummary :=
  { id := p.id, name := p.name, createdAt := p.createdAt,
    updatedAt := p.updatedAt, duration := p.duration, thumbnail := p.thumbnail }

/-- `ProjectManager.updateRecentProjects` (the list transformation around the
storage read/write): drop any entry with the same id, put the new summary at
the head, truncate to 20. -/
def updateRecentProjects (recent : List ProjectSummary) (p : ProjectRecord) :
    List ProjectSummary :=
  let filtered := recent.filter (fun q => q.id != p.id)
  (mkProjectSummary p :: filtered).take 20

/-! ## Recording session manager

`RecordingManager` from `src/background/recording-manager.js`.  The media
and cursor collaborators are replaced by explicit outcome parameters: the
collaborator acknowledgments consumed during `startRecording`, and the
`videoBlobs` payload returned by the collaborator during `stopRecording`.
Chunk payloads are opaque to this core; a chunk is modelled by its byte
size, its mime type, and the capture collaborator's sequence index, which
the spec attaches to every chunk but which no code path inspects. -/

/-- Session lifecycle states (`session.state` strings). -/
inductive SessState where
  | starting
  | recording
  | paused
  | stopping
  | stopped
  | errorState
  deriving DecidableEq

/-- A video chunk.  `seqIndex` is the capture collaborator's sequence index
(spec §6), carried as metadata only. -/
structure VideoChunk where
  seqIndex : Nat
  size : Nat
  type : String
  deriving DecidableEq

/-- An incoming cursor-event message (`eventData`): the session id plus the
type-specific payload, which this core treats as opaque. -/
structure CursorEventIn where
  sessionId : String
  payload : String
  deriving DecidableEq

/-- A recorded cursor event: payload plus the two computed offsets from
`RecordingManager.addCursorEvent`. -/
structure CursorEvent where
  payload : String
  timestamp : Int
  relativeTime : Int
  deriving DecidableEq

/-- The settings snapshot captured at start. -/
structure RecSettings where
  quality : String
  fps : Int
  autoZoom : Bool
  zoomLevel : Int
  zoomDuration : Int
  deriving DecidableEq

/-- The options bag passed to `startRecording`; missing fields take the
defaults applied there. -/
structure StartOptions where
  tabId : Nat
  streamId : String
  quality : Option String := none
  fps : Option Int := none
  autoZoom : Option Bool := none
  zoomLevel : Option Int := none
  zoomDuration : Option Int := none
  deriving DecidableEq

/-- Default application in `startRecording`'s settings literal
(`options.quality || 'high'`, `options.autoZoom !== false`, ...). -/
def settingsOf (o : StartOptions) : RecSettings :=
  { quality := o.quality.getD "high"
    fps := o.fps.getD 30
    autoZoom := o.autoZoom != some false
    zoomLevel := o.zoomLevel.getD 2
    zoomDuration := o.zoomDuration.getD 300 }

/-- One active session.  `pauseTime`, `totalPauseDuration` and `endTime`
start undefined in JS and are read only through `|| 0` or after being set;
the model gives them the observationally identical `0` default. -/
structure RMSession where
  id : String
  tabId : Nat
  streamId : String
  startTime : Int
  state : SessState
  cursorEvents : List CursorEvent
  videoBlobs : List VideoChunk
  settings : RecSettings
  pauseTime : Int := 0
  totalPauseDuration : Int := 0
  endTime : Int := 0
  deriving DecidableEq

/-- The manager: the active-session registry plus the id counter. -/
structure RecordingManager where
  activeSessions : List (String × RMSession)
  recordingId : Nat
  deriving DecidableEq

def RecordingManager.init : RecordingManager :=
  { activeSessions := [], recordingId := 0 }

/-- `` `session_${++this.recordingId}_${Date.now()}` ``. -/
def mkSessionId (n : Nat) (now : Int) : String :=
  "session_" ++ toString n ++ "_" ++ toString now

/-- Acknowledgment outcome of the capture / tracking collaborators awaited
during `startRecording`: success, or any of the failure modes (permission
denied, content-script communication failure, 15s timeout), which all
surface as a rejected promise. -/
inductive StartOutcome where
  | ok
  | initFail (msg : String)
  deriving DecidableEq

/-- `RecordingManager.startRecording`: register the new session in
`starting` state, await the collaborators, then either mark it `recording`
or — on any collaborator failure — delete it from the registry again and
rethrow. -/
def RecordingManager.startRecording (m : RecordingManager) (now : Int)
    (o : StartOptions) (outcome : StartOutcome) :
    RecordingManager × Except String RMSession :=
  let n := m.recordingId + 1
  let sid := mkSessionId n now
  let sess : RMSession :=
    { id := sid, tabId := o.tabId, streamId := o.streamId, startTime := now,
      state := .starting, cursorEvents := [], videoBlobs := [],
      settings := settingsOf o }
  let reg1 := alistSet m.activeSessions sid sess
  match outcome with
  | .initFail msg =>
    ({ activeSessions := alistEraseAll reg1 sid, recordingId := n }, .error msg)
  | .ok =>
    let sess' := { sess with state := .recording }
    ({ activeSessions := alistSet reg1 sid sess', recordingId := n }, .ok sess')

/-- Result message of the non-throwing operations (`{ success, error? }`). -/
structure OpResult where
  success : Bool
  error : Option String := none
  deriving DecidableEq

/-- `RecordingManager.addCursorEvent`: accept the event whenever its session
is in the registry, stamping `timestamp = now − startTime` and
`relativeTime = now − startTime − (totalPauseDuration || 0)` with the
pause total as it stands at arrival. -/
def RecordingManager.addCursorEvent (m : RecordingManager) (now : Int)
    (ev : CursorEventIn) : RecordingManager × OpResult :=
  match alistLookup m.activeSessions ev.sessionId with
  | none => (m, { success := false, error := some "Session not found" })
  | some s =>
    let e : CursorEvent :=
      { payload := ev.payload
        timestamp := now - s.startTime
        relativeTime := now - s.startTime - s.totalPauseDuration }
    let s' := { s with cursorEvents := s.cursorEvents ++ [e] }
    ({ m with activeSessions := alistSet m.activeSessions ev.sessionId s' },
     { success := true })

/-- `RecordingManager.pauseRecording`: legal only for a registered session in
`recording` state; otherwise throws before mutating anything. -/
def RecordingManager.pauseRecording (m : RecordingManager) (sessionId : String)
    (now : Int) : RecordingManager × Except String SessState :=
  match alistLookup m.activeSessions sessionId with
  | none => (m, .error "Invalid session state for pause")
  | some s =>
    if s.state = .recording then
      let s' := { s with state := .paused, pauseTime := now }
      ({ m with activeSessions := alistSet m.activeSessions sessionId s' },
       .ok .paused)
    else (m, .error "Invalid session state for pause")

/-- `RecordingManager.resumeRecording`: legal only for a registered session in
`paused` state; adds `now − pauseTime` to the accumulated pause total. -/
def RecordingManager.resumeRecording (m : RecordingManager) (sessionId : String)
    (now : Int) : RecordingManager × Except String SessState :=
  match alistLookup m.activeSessions sessionId with
  | none => (m, .error "Invalid session state for resume")
  | some s =>
    if s.state = .paused then
      let tpd := s.totalPauseDuration + (now - s.pauseTime)
      let s' := { s with state := SessState.recording, totalPauseDuration := tpd }
      ({ m with activeSessions := alistSet m.activeSessions sessionId s' },
       .ok .recording)
    else (m, .error "Invalid session state for resume")

/-- One sealed video segment descriptor from `generateProjectData`. -/
structure VideoSegment where
  segId : String
  startTime : Int
  duration : Int
  blobId : String
  size : Nat
  type : String
  deriving DecidableEq

/-- `session.videoBlobs.map((blob, index) => ...)`: positional segment
construction, index-derived ids, approximate per-second timing. -/
def buildSegments (sessionId : String) : Nat → List VideoChunk → List VideoSegment
  | _, [] => []
  | i, b :: bs =>
    { segId := "segment_" ++ toString i
      startTime := (i : Int) * 1000
      duration := 1000
      blobId := sessionId ++ "_" ++ toString i
      size := b.size
      type := b.type } :: buildSegments sessionId (i + 1) bs

/-- The sealed timeline of a finished session. -/
structure Timeline where
  duration : Int
  cursorEvents : List CursorEvent
  videoSegments : List VideoSegment
  deriving DecidableEq

/-- The project produced at stop (the locale-formatted display name and the
static export block are omitted as presentation-only). -/
structure ProjectData where
  id : String
  createdAt : Int
  updatedAt : Int
  duration : Int
  settings : RecSettings
  timeline : Timeline
  deriving DecidableEq

/-- `RecordingManager.generateProjectData` on the stopped session. -/
def RecordingManager.generateProjectData (now : Int) (s : RMSession) : ProjectData :=
  { id := "project_" ++ s.id
    createdAt := s.startTime
    updatedAt := now
    duration := s.endTime - s.startTime
    settings := s.settings
    timeline :=
      { duration := s.endTime - s.startTime
        cursorEvents := s.cursorEvents
        videoSegments := buildSegments s.id 0 s.videoBlobs } }

/-- Result of a successful `stopRecording`. -/
structure StopResult where
  success : Bool
  sessionId : String
  duration : Int
  projectData : ProjectData
  deriving DecidableEq

/-- `RecordingManager.stopRecording` (successful collaborator path): stamp
`endTime`, take the collaborator's final blob list, seal the project data and
drop the session from the registry. -/
def RecordingManager.stopRecording (m : RecordingManager) (sessionId : String)
    (now : Int) (blobs : List VideoChunk) :
    RecordingManager × Except String StopResult :=
  match alistLookup m.activeSessions sessionId with
  | none => (m, .error ("Recording session not found: " ++ sessionId))
  | some s =>
    let s1 := { s with state := .stopping, endTime := now, videoBlobs := blobs }
    let project := RecordingManager.generateProjectData now s1
    ({ m with activeSessions := alistEraseAll m.activeSessions sessionId },
     .ok { success := true, sessionId := sessionId,
           duration := s1.endTime - s1.startTime, projectData := project })

/-! ## Background service worker

`CursorFlowRecorder` from `background/service-worker.js`: a single-session
recorder guarded by the `isRecording` flag.  Screen-capture acquisition and
MediaRecorder initialization are replaced by an explicit outcome parameter;
the saved `videoData` base64 payload is represented by the byte length of
the blob built from the received chunks (`none` models the `null` written
by `saveEmptyRecording`). -/

/-- The service worker's session object. -/
structure SWSession where
  id : String
  startTime : Int
  settings : String
  deriving DecidableEq

/-- A persisted recording record (`recording_{id}` key). -/
structure SWRecording where
  id : String
  timestamp : Int
  settings : String
  duration : Int
  cursorEvents : List CursorEventIn
  videoData : Option Nat
  size : Nat
  mimeType : String
  error : Option String := none
  deriving DecidableEq

/-- One entry of the `recordings_list`. -/
structure RecordingSummary where
  id : String
  timestamp : Int
  duration : Int
  size : Nat
  settings : String
  deriving DecidableEq

/-- The slice of `chrome.storage.local` owned by the service worker. -/
structure SWStore where
  recordings : List (String × SWRecording)
  recordingsList : List RecordingSummary
  deriving DecidableEq

/-- The service worker's mutable state. -/
structure SWState where
  isRecording : Bool
  currentSession : Option SWSession
  recordedChunks : List VideoChunk
  cursorEvents : List CursorEventIn
  settings : String
  store : SWStore
  deriving DecidableEq

def SWState.initial : SWState :=
  { isRecording := false, currentSession := none, recordedChunks := [],
    cursorEvents := [], settings := "",
    store := { recordings := [], recordingsList := [] } }

/-- A `sendResponse` payload from the service worker's handlers. -/
structure SWResponse where
  success : Bool
  error : Option String := none
  sessionId : Option String := none
  recordingId : Option String := none
  deriving DecidableEq

/-- The summary pushed onto `recordings_list` by `saveToStorage`. -/
def mkRecordingSummary (r : SWRecording) : RecordingSummary :=
  { id := r.id, timestamp := r.timestamp, duration := r.duration,
    size := r.size, settings := r.settings }

/-- `CursorFlowRecorder.saveToStorage`'s update of `recordings_list`:
unshift the new summary, truncate to the 10 most recent. -/
def updateRecordingsList (l : List RecordingSummary) (r : SWRecording) :
    List RecordingSummary :=
  (mkRecordingSummary r :: l).take 10

/-- `CursorFlowRecorder.saveToStorage`: write the full record under
`recording_{id}` and refresh `recordings_list`. -/
def swSaveToStorage (store : SWStore) (r : SWRecording) : SWStore :=
  { recordings := alistSet store.recordings ("recording_" ++ r.id) r
    recordingsList := updateRecordingsList store.recordingsList r }

/-- How the screen-capture acquisition and recorder injection resolve during
`CursorFlowRecorder.startRecording`: the capture call rejects
(`chrome.runtime.lastError`); or it resolves with a falsy stream id (the
source declined); or a stream id is granted and the recording injection
either succeeds or throws. -/
inductive CaptureOutcome where
  | captureError (msg : String)
  | noStream
  | streamGranted (initOk : Bool)
  deriving DecidableEq

/-- `CursorFlowRecorder.startRecording`: refuse when already recording,
create `currentSession`, request capture, then either begin recording or
fail.  The falsy-stream branch returns the permission-denied failure
directly, without the catch-branch cleanup of `currentSession`. -/
def SWState.startRecording (st : SWState) (now : Int) (settings : String)
    (outcome : CaptureOutcome) : SWState × SWResponse :=
  if st.isRecording then
    (st, { success := false, error := some "Already recording" })
  else
    let sess : SWSession :=
      { id := "recording_" ++ toString now, startTime := now, settings := settings }
    let st1 := { st with settings := settings, currentSession := some sess }
    match outcome with
    | .captureError msg =>
      ({ st1 with isRecording := false, currentSession := none },
       { success := false, error := some msg })
    | .noStream =>
      (st1, { success := false, error := some "Screen capture permission denied" })
    | .streamGranted false =>
      ({ st1 with isRecording := false, currentSession := none },
       { success := false, error := some "Failed to initialize recording" })
    | .streamGranted true =>
      ({ st1 with isRecording := true, recordedChunks := [], cursorEvents := [] },
       { success := true, sessionId := some sess.id })

/-- The `RECORD_CHUNK` branch of `CursorFlowRecorder.handleMessage`:
append the chunk in arrival order. -/
def SWState.handleRecordChunk (st : SWState) (chunk : VideoChunk) :
    SWState × SWResponse :=
  ({ st with recordedChunks := st.recordedChunks ++ [chunk] },
   { success := true })

/-- The `CURSOR_EVENT` branch (`handleCursorEvent`): record the event only
while a recording session is live. -/
def SWState.handleCursorEvent (st : SWState) (ev : CursorEventIn) : SWState :=
  if st.isRecording ∧ st.currentSession.isSome then
    { st with cursorEvents := st.cursorEvents ++ [ev] }
  else st

/-- `CursorFlowRecorder.stopRecording` (after the 2s chunk grace period,
with `now` the clock at save time): save a full recording when chunks
arrived, otherwise fall back to `saveEmptyRecording`, which persists the
metadata with `videoData = null`, `size = 0` and the explicit
`No video data received` marker.  After the save, the auto-open step calls
`this.openRecordingViewer(savedRecordingId)` with the always-truthy saved
id; no such method is defined anywhere in the sources (the class defines
only `openRecordingsTab`), so the call throws a `TypeError` inside the try
block and the surrounding catch closes the session
(`isRecording = false`, `currentSession = null`) and returns
`success: false` with the thrown message — the persisted record remains in
storage. -/
def SWState.stopRecording (st : SWState) (now : Int) : SWState × SWResponse :=
  if !st.isRecording then
    (st, { success := false, error := some "Not recording" })
  else
    match st.currentSession with
    | none =>
      ({ st with isRecording := false, currentSession := none },
       { success := false, error := some "Cannot read current session" })
    | some sess =>
      let saved :=
        if 0 < st.recordedChunks.length then
          let blobSize := (st.recordedChunks.map (fun c => c.size)).sum
          swSaveToStorage st.store
            { id := sess.id, timestamp := sess.startTime, settings := sess.settings,
              duration := now - sess.startTime, cursorEvents := st.cursorEvents,
              videoData := some blobSize, size := blobSize,
              mimeType := "video/webm" }
        else
          swSaveToStorage st.store
            { id := sess.id, timestamp := sess.startTime, settings := sess.settings,
              duration := now - sess.startTime, cursorEvents := st.cursorEvents,
              videoData := none, size := 0, mimeType := "video/webm",
              error := some "No video data received" }
      ({ st with isRecording := false, currentSession := none, store := saved },
       { success := false,
         error := some "this.openRecordingViewer is not a function" })

/-! ## Claim theorems -/

/-- Claim C1: every cursor event accepted while its session is in the
active-session registry is recorded with
`relativeTime = (arrival clock reading − startTime) − totalPauseDuration`
where the pause total is the one accumulated at the moment of arrival; in
particular, after a single pause from `t1` to `t2` (duration `P = t2 − t1`),
every subsequently arriving event carries
`relativeTime = rawTimestamp − startTime − P`. -/
theorem cursorEvent_relativeTime_pause_adjusted
    (m : RecordingManager) (now : Int) (ev : CursorEventIn) (s : RMSession)
    (h : alistLookup m.activeSessions ev.sessionId = some s) :
    (alistLookup (m.addCursorEvent now ev).1.activeSessions ev.sessionId =
      some { s with cursorEvents := s.cursorEvents ++
        [{ payload := ev.payload, timestamp := now - s.startTime,
           relativeTime := now - s.startTime - s.totalPauseDuration }] })
    ∧ (∀ (t0 t1 t2 t : Int) (o : StartOptions) (pl : String),
        let sid := mkSessionId 1 t0
        let n1 := (RecordingManager.init.startRecording t0 o .ok).1
        let n2 := (n1.pauseRecording sid t1).1
        let n3 := (n2.resumeRecording sid t2).1
        let n4 := (n3.addCursorEvent t { sessionId := sid, payload := pl }).1
        (alistLookup n4.activeSessions sid).map (fun s4 => s4.cursorEvents) =
          some [{ payload := pl, timestamp := t - t0,
                  relativeTime := t - t0 - (t2 - t1) }]) := by
  constructor
  · simp only [RecordingManager.addCursorEvent, h]
    exact alistLookup_set_self ..
  · intro t0 t1 t2 t o pl
    simp [RecordingManager.startRecording, RecordingManager.init,
          RecordingManager.pauseRecording, RecordingManager.resumeRecording,
          RecordingManager.addCursorEvent, alistLookup, alistSet]

/-- Witness for C1 at a concrete registry and arrival time. -/
theorem cursorEvent_relativeTime_pause_adjusted_witness :
    alistLookup
      ((RecordingManager.addCursorEvent
          { activeSessions :=
              [("sid", { id := "sid", tabId := 0, streamId := "", startTime := 1000,
                         state := .recording, cursorEvents := [], videoBlobs := [],
                         settings := { quality := "high", fps := 30, autoZoom := true,
                                       zoomLevel := 2, zoomDuration := 300 },
                         pauseTime := 0, totalPauseDuration := 2000, endTime := 0 })],
            recordingId := 1 } 9000
          { sessionId := "sid", payload := "mv" }).1.activeSessions) "sid" =
      some { id := "sid", tabId := 0, streamId := "", startTime := 1000,
             state := .recording,
             cursorEvents := [{ payload := "mv", timestamp := 9000 - 1000,
                                relativeTime := 9000 - 1000 - 2000 }],
             videoBlobs := [],
             settings := { quality := "high", fps := 30, autoZoom := true,
                           zoomLevel := 2, zoomDuration := 300 },
             pauseTime := 0, totalPauseDuration := 2000, endTime := 0 } :=
  (cursorEvent_relativeTime_pause_adjusted _ 9000 _
    { id := "sid", tabId := 0, streamId := "", startTime := 1000,
      state := .recording, cursorEvents := [], videoBlobs := [],
      settings := { quality := "high", fps := 30, autoZoom := true,
                    zoomLevel := 2, zoomDuration := 300 },
      pauseTime := 0, totalPauseDuration := 2000, endTime := 0 }
    (by decide)).1

/-- Claim C2 counterexample: in the run start@1000, pause@5000, resume@7000
(total paused duration 2000), stop@11000, the sealed timeline's duration is
10000 — the full wall-clock span — and not `(11000 − 1000) − 2000 = 8000`
as the claim requires. -/
theorem timeline_duration_ignores_pause_counterexample :
    let o : StartOptions := { tabId := 1, streamId := "str" }
    let sid := mkSessionId 1 1000
    let n1 := (RecordingManager.init.startRecording 1000 o .ok).1
    let n2 := (n1.pauseRecording sid 5000).1
    let n3 := (n2.resumeRecording sid 7000).1
    ((alistLookup n3.activeSessions sid).map (fun s => s.totalPauseDuration) = some 2000)
    ∧ ((n3.stopRecording sid 11000 []).2.toOption.map
          (fun r => r.projectData.timeline.duration) = some 10000)
    ∧ ¬ ((10000 : Int) = (11000 - 1000) - 2000) := by decide

/-- Claim C2 (amended): the sealed timeline's duration is the full wall-clock
span `endTime − startTime`; the accumulated paused duration is not
subtracted.  Stated over the start/pause/resume/stop run with arbitrary
transition times. -/
theorem timeline_duration_wall_clock_span
    (t0 t1 t2 t3 : Int) (o : StartOptions) (blobs : List VideoChunk) :
    let sid := mkSessionId 1 t0
    let n1 := (RecordingManager.init.startRecording t0 o .ok).1
    let n2 := (n1.pauseRecording sid t1).1
    let n3 := (n2.resumeRecording sid t2).1
    let r := (n3.stopRecording sid t3 blobs).2
    (r.toOption.map (fun res => res.projectData.timeline.duration) = some (t3 - t0))
    ∧ (r.toOption.map (fun res => res.duration) = some (t3 - t0))
    ∧ (r.toOption.map (fun res => res.projectData.duration) = some (t3 - t0)) := by
  simp [RecordingManager.startRecording, RecordingManager.init,
        RecordingManager.pauseRecording, RecordingManager.resumeRecording,
        RecordingManager.stopRecording, RecordingManager.generateProjectData,
        alistLookup, alistSet, Except.toOption]

/-- Claim C3 counterexample: chunks captured with sequence indices 0,1,2 but
arriving in the order 1,0,2 (distinguished here by their byte sizes
`500 + seqIndex`) are sealed in arrival order — segment sizes 501,500,502 —
and the sealed sequence-index order `[1, 0, 2]` is not sorted, so the
timeline is not ordered by `sequenceIndex`. -/
theorem sealed_segments_not_sorted_by_seq_counterexample :
    let arrival : List VideoChunk :=
      [⟨1, 501, "video/webm"⟩, ⟨0, 500, "video/webm"⟩, ⟨2, 502, "video/webm"⟩]
    let o : StartOptions := { tabId := 1, streamId := "str" }
    let sid := mkSessionId 1 1000
    let n1 := (RecordingManager.init.startRecording 1000 o .ok).1
    ((n1.stopRecording sid 4000 arrival).2.toOption.map
        (fun r => r.projectData.timeline.videoSegments.map (fun sg => sg.size)) =
      some [501, 500, 502])
    ∧ arrival.map (fun c => c.seqIndex) = [1, 0, 2]
    ∧ ¬ List.Sorted (· ≤ ·) (arrival.map (fun c => c.seqIndex)) := by decide

theorem buildSegments_map_size (sessionId : String) (i : Nat) (bs : List VideoChunk) :
    (buildSegments sessionId i bs).map (fun sg => sg.size) = bs.map (fun c => c.size) := by
  induction bs generalizing i with
  | nil => rfl
  | cons b bs ih => simp [buildSegments, ih]

theorem buildSegments_map_type (sessionId : String) (i : Nat) (bs : List VideoChunk) :
    (buildSegments sessionId i bs).map (fun sg => sg.type) = bs.map (fun c => c.type) := by
  induction bs generalizing i with
  | nil => rfl
  | cons b bs ih => simp [buildSegments, ih]

theorem buildSegments_length (sessionId : String) (i : Nat) (bs : List VideoChunk) :
    (buildSegments sessionId i bs).length = bs.length := by
  induction bs generalizing i with
  | nil => rfl
  | cons b bs ih => simp [buildSegments, ih]

/-- Claim C3 (amended): the sealed timeline's video segments are emitted in
chunk-arrival order — segment `i` is built positionally from the `i`-th
entry of `session.videoBlobs` — and no sequence-index sort takes place. -/
theorem sealed_segments_follow_arrival_order (now : Int) (s : RMSession) :
    ((RecordingManager.generateProjectData now s).timeline.videoSegments.map
        (fun sg => sg.size) = s.videoBlobs.map (fun c => c.size))
    ∧ ((RecordingManager.generateProjectData now s).timeline.videoSegments.map
        (fun sg => sg.type) = s.videoBlobs.map (fun c => c.type))
    ∧ (RecordingManager.generateProjectData now s).timeline.videoSegments.length
        = s.videoBlobs.length := by
  refine ⟨?_, ?_, ?_⟩
  · exact buildSegments_map_size s.id 0 s.videoBlobs
  · exact buildSegments_map_type s.id 0 s.videoBlobs
  · exact buildSegments_length s.id 0 s.videoBlobs

/-- Success flag of a throwing operation (`Except`-modelled JS throw). -/
def exOk {α : Type} : Except String α → Bool
  | .ok _ => true
  | .error _ => false

/-- Claim C4: `pauseRecording` succeeds exactly when the session is registered
and in `recording` state and `resumeRecording` exactly when it is registered
and `paused`; in every other situation they fail with the invalid-state error
and leave the manager — hence the session and all of its fields — unchanged. -/
theorem pause_resume_state_guards
    (m : RecordingManager) (sessionId : String) (now : Int) :
    (exOk (m.pauseRecording sessionId now).2 = true ↔
      ∃ s, alistLookup m.activeSessions sessionId = some s ∧ s.state = .recording)
    ∧ (exOk (m.pauseRecording sessionId now).2 = false →
        (m.pauseRecording sessionId now).1 = m)
    ∧ (exOk (m.resumeRecording sessionId now).2 = true ↔
      ∃ s, alistLookup m.activeSessions sessionId = some s ∧ s.state = .paused)
    ∧ (exOk (m.resumeRecording sessionId now).2 = false →
        (m.resumeRecording sessionId now).1 = m) := by
  refine ⟨?_, ?_, ?_, ?_⟩
  · cases h : alistLookup m.activeSessions sessionId with
    | none => simp [RecordingManager.pauseRecording, h, exOk]
    | some s =>
      by_cases hs : s.state = .recording <;>
        simp [RecordingManager.pauseRecording, h, hs, exOk]
  · cases h : alistLookup m.activeSessions sessionId with
    | none => simp [RecordingManager.pauseRecording, h]
    | some s =>
      by_cases hs : s.state = .recording <;>
        simp [RecordingManager.pauseRecording, h, hs, exOk]
  · cases h : alistLookup m.activeSessions sessionId with
    | none => simp [RecordingManager.resumeRecording, h, exOk]
    | some s =>
      by_cases hs : s.state = .paused <;>
        simp [RecordingManager.resumeRecording, h, hs, exOk]
  · cases h : alistLookup m.activeSessions sessionId with
    | none => simp [RecordingManager.resumeRecording, h]
    | some s =>
      by_cases hs : s.state = .paused <;>
        simp [RecordingManager.resumeRecording, h, hs, exOk]

/-- Witness for C4: on an empty registry both operations fail and mutate
nothing. -/
theorem pause_resume_state_guards_witness :
    ((RecordingManager.pauseRecording { activeSessions := [], recordingId := 0 } "x" 5).1
      = { activeSessions := [], recordingId := 0 })
    ∧ ((RecordingManager.resumeRecording { activeSessions := [], recordingId := 0 } "x" 5).1
      = { activeSessions := [], recordingId := 0 }) :=
  ⟨(pause_resume_state_guards { activeSessions := [], recordingId := 0 } "x" 5).2.1
      (by decide),
   (pause_resume_state_guards { activeSessions := [], recordingId := 0 } "x" 5).2.2.2
      (by decide)⟩

/-- Claim C5 counterexample: stopping with zero chunks received does persist
the metadata record, but the stop response reports failure: after the save,
`stopRecording` calls `this.openRecordingViewer`, a method defined nowhere
in the sources, so the call throws inside the try block and the catch
returns `success: false` — the stop does not succeed as the claim states. -/
theorem stop_zero_chunks_response_failure_counterexample :
    let st : SWState :=
      { isRecording := true,
        currentSession := some { id := "r1", startTime := 100, settings := "cfg" },
        recordedChunks := [], cursorEvents := [], settings := "cfg",
        store := { recordings := [], recordingsList := [] } }
    ((st.stopRecording 500).2.success = false)
    ∧ (alistLookup (st.stopRecording 500).1.store.recordings "recording_r1" =
        some { id := "r1", timestamp := 100, settings := "cfg", duration := 400,
               cursorEvents := [], videoData := none, size := 0,
               mimeType := "video/webm",
               error := some "No video data received" }) := by decide

/-- Claim C5 (amended): stopping a session after zero chunks arrived still
persists a record with no video payload (`videoData = null`, this record
shape's representation of an empty segment list), zero size, and the
explicit `No video data received` marker, and the session reaches a
terminal state (`isRecording = false`, session cleared); but the stop
response reports failure (`success: false` with the `openRecordingViewer`
TypeError), because the auto-open step throws after every save — so the
failure is not specific to missing video data: any stop of a live session
returns `success: false`, chunks or no chunks. -/
theorem stop_zero_chunks_persists_but_reports_failure
    (st : SWState) (sess : SWSession) (now : Int)
    (h1 : st.isRecording = true) (h2 : st.currentSession = some sess)
    (h3 : st.recordedChunks = []) :
    (alistLookup (st.stopRecording now).1.store.recordings
        ("recording_" ++ sess.id) =
        some { id := sess.id, timestamp := sess.startTime, settings := sess.settings,
               duration := now - sess.startTime, cursorEvents := st.cursorEvents,
               videoData := none, size := 0, mimeType := "video/webm",
               error := some "No video data received" })
    ∧ ((st.stopRecording now).2.success = false)
    ∧ ((st.stopRecording now).2.error =
        some "this.openRecordingViewer is not a function")
    ∧ ((st.stopRecording now).1.isRecording = false)
    ∧ ((st.stopRecording now).1.currentSession = none)
    ∧ (∀ (st2 : SWState) (sess2 : SWSession),
        st2.isRecording = true → st2.currentSession = some sess2 →
        (st2.stopRecording now).2.success = false) := by
  refine ⟨?_, ?_, ?_, ?_, ?_, ?_⟩
  · simp [SWState.stopRecording, h1, h2, h3, swSaveToStorage, alistLookup_set_self]
  · simp [SWState.stopRecording, h1, h2, h3]
  · simp [SWState.stopRecording, h1, h2, h3]
  · simp [SWState.stopRecording, h1, h2, h3]
  · simp [SWState.stopRecording, h1, h2, h3]
  · intro st2 sess2 hr2 hc2
    by_cases hc : 0 < st2.recordedChunks.length <;>
      simp [SWState.stopRecording, hr2, hc2, hc]

/-- Witness for C5 (amended) at a concrete service-worker state. -/
theorem stop_zero_chunks_persists_but_reports_failure_witness :
    (alistLookup (SWState.stopRecording
        { isRecording := true,
          currentSession := some { id := "r1", startTime := 100, settings := "cfg" },
          recordedChunks := [], cursorEvents := [], settings := "cfg",
          store := { recordings := [], recordingsList := [] } } 500).1.store.recordings
        ("recording_" ++ "r1") =
        some { id := "r1", timestamp := 100, settings := "cfg",
               duration := 500 - 100, cursorEvents := [],
               videoData := none, size := 0, mimeType := "video/webm",
               error := some "No video data received" })
    ∧ ((SWState.stopRecording
        { isRecording := true,
          currentSession := some { id := "r1", startTime := 100, settings := "cfg" },
          recordedChunks := [], cursorEvents := [], settings := "cfg",
          store := { recordings := [], recordingsList := [] } } 500).2.success = false) :=
  ⟨(stop_zero_chunks_persists_but_reports_failure _
      { id := "r1", startTime := 100, settings := "cfg" } 500 rfl rfl rfl).1,
   (stop_zero_chunks_persists_but_reports_failure _
      { id := "r1", startTime := 100, settings := "cfg" } 500 rfl rfl rfl).2.1⟩

/-- Claim C6 exhibit: a store holding one live project `p` whose timeline
references blob `p_0`, with the blob 31 days old and usage at 96% of the
100-byte quota.  `cleanupStorage` deletes `blob_p_0` even though project `p`
still references it, leaving a dangling Project→Blob reference — the
`oldBlobs` branch removes *referenced* blobs, contradicting both the claim
and the function's own comment ("older than 30 days and not referenced by
projects"). -/
theorem evict_deletes_referenced_blob :
    let p : ProjectRecord :=
      { id := "p", name := "P", createdAt := 1, updatedAt := 1, duration := 1,
        blobIds := ["p_0"], bytes := 95 }
    let st : Store := [("project_p", .proj p), ("blob_p_0", .blob 1 1)]
    let st' := (cleanupStorage 2678400000 100 st).1
    ("p_0" ∈ p.blobIds)
    ∧ (alistLookup st' "project_p" = some (.proj p))
    ∧ (alistLookup st' "blob_p_0" = none) := by decide

/-- Claim C7 counterexample: four referenced blobs, each 31 days old, with
usage pinned above the 80% threshold by a 95-byte project record under a
100-byte quota.  The first eviction pass removes two of the old blobs, and a
second pass — with no writes in between — removes another one
(`blob_p_2`), so the second run does perform additional deletions. -/
theorem evict_twice_deletes_more_counterexample :
    let p : ProjectRecord :=
      { id := "p", name := "P", createdAt := 1, updatedAt := 1, duration := 1,
        blobIds := ["p_0", "p_1", "p_2", "p_3"], bytes := 95 }
    let st0 : Store :=
      [("project_p", .proj p), ("blob_p_0", .blob 1 1), ("blob_p_1", .blob 1 1),
       ("blob_p_2", .blob 1 1), ("blob_p_3", .blob 1 1)]
    let st1 := performMaintenance 2678400000 100 st0
    let st2 := performMaintenance 2678400000 100 st1
    (alistLookup st1 "blob_p_2" = some (.blob 1 1))
    ∧ (alistLookup st2 "blob_p_2" = none) := by decide

theorem performMaintenance_under_quota_frame (now : Int) (quota : Nat) (st : Store)
    (h : roundPct (usedBytes st) quota ≤ 80) (k : String)
    (hk : k ≠ "lastMaintenance") :
    alistLookup (performMaintenance now quota st) k = alistLookup st k := by
  unfold performMaintenance
  simp only []
  rw [if_neg (show ¬ 80 < roundPct (usedBytes st) quota by omega)]
  exact alistLookup_set_ne st "lastMaintenance" k (.maint now) hk

/-- Claim C7 (amended): running eviction with usage at or below the 80%
threshold deletes nothing (only the `lastMaintenance` timestamp is
rewritten), and consequently a second eviction pass deletes nothing provided
the first pass left usage at or below the threshold; when usage remains
above the threshold, a second pass can delete additional over-age blobs
(each pass removes half of the remainder), so unconditional idempotence
fails. -/
theorem evict_under_quota_no_op (now : Int) (quota : Nat) (st : Store)
    (h : roundPct (usedBytes st) quota ≤ 80) :
    (∀ k, k ≠ "lastMaintenance" →
      alistLookup (performMaintenance now quota st) k = alistLookup st k)
    ∧ (∀ now2 : Int,
        roundPct (usedBytes (performMaintenance now quota st)) quota ≤ 80 →
        ∀ k, k ≠ "lastMaintenance" →
          alistLookup (performMaintenance now2 quota (performMaintenance now quota st)) k
            = alistLookup (performMaintenance now quota st) k) :=
  ⟨fun k hk => performMaintenance_under_quota_frame now quota st h k hk,
   fun now2 h2 k hk =>
     performMaintenance_under_quota_frame now2 quota
       (performMaintenance now quota st) h2 k hk⟩

/-- Witness for C7 (amended) on an under-quota store. -/
theorem evict_under_quota_no_op_witness :
    alistLookup (performMaintenance 5 10 ([("blob_a", .blob 1 1)] : Store)) "blob_a"
      = alistLookup ([("blob_a", .blob 1 1)] : Store) "blob_a" :=
  (evict_under_quota_no_op 5 10 [("blob_a", .blob 1 1)] (by decide)).1 "blob_a"
    (by decide)

/-- Claim C8 counterexample: when screen capture resolves with a falsy stream
id (the permission-denied path), `CursorFlowRecorder.startRecording` returns
the failure through the early `return` without the catch-branch cleanup, so
`currentSession` still holds the rejected session when start returns — the
failed session is not removed from the registry. -/
theorem failed_start_leaves_current_session_counterexample :
    ((SWState.initial.startRecording 1000 "cfg" .noStream).2.success = false)
    ∧ ((SWState.initial.startRecording 1000 "cfg" .noStream).2.error =
        some "Screen capture permission denied")
    ∧ ((SWState.initial.startRecording 1000 "cfg" .noStream).1.currentSession =
        some { id := "recording_" ++ toString (1000 : Int), startTime := 1000,
               settings := "cfg" }) := by decide

/-- Claim C8 (amended): a failed start cannot produce an `Already recording`
leak.  `RecordingManager.startRecording` removes the failed session from
`activeSessions` before returning, restoring the registry; and although
`CursorFlowRecorder.startRecording` may leave a stale `currentSession`
behind on the permission-denied path, every failing start leaves
`isRecording = false` — the flag its already-recording guard checks — so a
subsequent start for the same target succeeds. -/
theorem failed_start_no_already_active_leak
    (m : RecordingManager) (now : Int) (o : StartOptions) (msg : String)
    (st : SWState) (t1 t2 : Int) (cfg cfg2 : String) (oc : CaptureOutcome)
    (hfresh : alistLookup m.activeSessions (mkSessionId (m.recordingId + 1) now) = none)
    (hrec : st.isRecording = false)
    (hfail : (st.startRecording t1 cfg oc).2.success = false) :
    ((m.startRecording now o (.initFail msg)).1.activeSessions = m.activeSessions)
    ∧ ((st.startRecording t1 cfg oc).1.isRecording = false)
    ∧ (((st.startRecording t1 cfg oc).1.startRecording t2 cfg2
          (.streamGranted true)).2.success = true) := by
  have hiso : (st.startRecording t1 cfg oc).1.isRecording = false := by
    cases oc with
    | captureError msg2 => simp [SWState.startRecording, hrec]
    | noStream => simp [SWState.startRecording, hrec]
    | streamGranted ok2 =>
      cases ok2 with
      | false => simp [SWState.startRecording, hrec]
      | true => simp [SWState.startRecording, hrec] at hfail
  refine ⟨?_, hiso, ?_⟩
  · show alistEraseAll
      (alistSet m.activeSessions (mkSessionId (m.recordingId + 1) now) _)
      (mkSessionId (m.recordingId + 1) now) = m.activeSessions
    rw [alistEraseAll_set_self]
    exact alistEraseAll_of_lookup_none _ _ hfresh
  · generalize (st.startRecording t1 cfg oc).1 = st1 at hiso ⊢
    simp [SWState.startRecording, hiso]

/-- Witness for C8 (amended): a fresh manager and a fresh service worker,
with capture declined on the first start. -/
theorem failed_start_no_already_active_leak_witness :
    ((RecordingManager.startRecording { activeSessions := [], recordingId := 0 } 7
        { tabId := 0, streamId := "" } (.initFail "denied")).1.activeSessions = [])
    ∧ ((SWState.initial.startRecording 1 "a" .noStream).1.isRecording = false)
    ∧ (((SWState.initial.startRecording 1 "a" .noStream).1.startRecording 2 "b"
          (.streamGranted true)).2.success = true) :=
  failed_start_no_already_active_leak
    { activeSessions := [], recordingId := 0 } 7 { tabId := 0, streamId := "" }
    "denied" SWState.initial 1 2 "a" "b" .noStream (by decide) rfl (by decide)

/-- Claim C9: after every save, each recent-list has the new entry at its
head, stays ordered most-recent-first (given that the incoming list was and
that the new entry is at least as recent as every existing one), and never
exceeds 20 entries — `recent_projects` is truncated to 20 and
`recordings_list` to 10, so both respect the 20-entry bound. -/
theorem recent_lists_bounded_most_recent_first
    (recent : List ProjectSummary) (p : ProjectRecord)
    (hs : recent.Pairwise (fun a b => b.updatedAt ≤ a.updatedAt))
    (hp : ∀ q ∈ recent, q.updatedAt ≤ p.updatedAt)
    (l : List RecordingSummary) (r : SWRecording)
    (hs2 : l.Pairwise (fun a b => b.timestamp ≤ a.timestamp))
    (hr : ∀ q ∈ l, q.timestamp ≤ r.timestamp) :
    ((updateRecentProjects recent p).head? = some (mkProjectSummary p)
      ∧ (updateRecentProjects recent p).length ≤ 20
      ∧ (updateRecentProjects recent p).Pairwise (fun a b => b.updatedAt ≤ a.updatedAt))
    ∧ ((updateRecordingsList l r).head? = some (mkRecordingSummary r)
      ∧ (updateRecordingsList l r).length ≤ 20
      ∧ (updateRecordingsList l r).Pairwise (fun a b => b.timestamp ≤ a.timestamp)) := by
  constructor
  · refine ⟨rfl, ?_, ?_⟩
    · show ((mkProjectSummary p :: recent.filter (fun q => q.id != p.id)).take 20).length ≤ 20
      rw [List.length_take]
      exact min_le_left _ _
    · have hf : (recent.filter (fun q => q.id != p.id)).Pairwise
          (fun a b => b.updatedAt ≤ a.updatedAt) := hs.filter _
      have hcons : (mkProjectSummary p :: recent.filter (fun q => q.id != p.id)).Pairwise
          (fun a b => b.updatedAt ≤ a.updatedAt) := by
        rw [List.pairwise_cons]
        exact ⟨fun b hb => hp b (List.mem_of_mem_filter hb), hf⟩
      exact hcons.sublist (List.take_sublist _ _)
  · refine ⟨rfl, ?_, ?_⟩
    · show ((mkRecordingSummary r :: l).take 10).length ≤ 20
      rw [List.length_take]
      have := min_le_left 10 (mkRecordingSummary r :: l).length
      omega
    · have hcons : (mkRecordingSummary r :: l).Pairwise
          (fun a b => b.timestamp ≤ a.timestamp) := by
        rw [List.pairwise_cons]
        exact ⟨fun b hb => hr b hb, hs2⟩
      exact hcons.sublist (List.take_sublist _ _)

/-- Witness for C9 with one pre-existing entry in each list. -/
theorem recent_lists_bounded_most_recent_first_witness :
    ((updateRecentProjects
        [{ id := "a", name := "A", createdAt := 1, updatedAt := 5, duration := 1,
           thumbnail := none }]
        { id := "b", name := "B", createdAt := 2, updatedAt := 9, duration := 3 }).head?
      = some (mkProjectSummary
          { id := "b", name := "B", createdAt := 2, updatedAt := 9, duration := 3 }))
    ∧ ((updateRecentProjects
        [{ id := "a", name := "A", createdAt := 1, updatedAt := 5, duration := 1,
           thumbnail := none }]
        { id := "b", name := "B", createdAt := 2, updatedAt := 9, duration := 3 }).length ≤ 20) :=
  ⟨(recent_lists_bounded_most_recent_first
      [{ id := "a", name := "A", createdAt := 1, updatedAt := 5, duration := 1,
         thumbnail := none }]
      { id := "b", name := "B", createdAt := 2, updatedAt := 9, duration := 3 }
      (by decide) (by decide)
      [] { id := "r", timestamp := 4, settings := "s", duration := 2,
           cursorEvents := [], videoData := none, size := 0, mimeType := "m" }
      (by decide) (by decide)).1.1,
   (recent_lists_bounded_most_recent_first
      [{ id := "a", name := "A", createdAt := 1, updatedAt := 5, duration := 1,
         thumbnail := none }]
      { id := "b", name := "B", createdAt := 2, updatedAt := 9, duration := 3 }
      (by decide) (by decide)
      [] { id := "r", timestamp := 4, settings := "s", duration := 2,
           cursorEvents := [], videoData := none, size := 0, mimeType := "m" }
      (by decide) (by decide)).1.2.1⟩

/-- Claim C10: `loadProject` is not read-only — for a stored project it
stamps `lastAccessed` with the current clock reading and writes the record
back under the same key, leaving every other field of the project and every
other storage key unchanged. -/
theorem load_project_stamps_last_accessed
    (st : Store) (projectId : String) (p : ProjectRecord) (now : Int)
    (h : alistLookup st ("project_" ++ projectId) = some (.proj p)) :
    (loadProject st projectId now =
      .ok (alistSet st ("project_" ++ projectId)
             (.proj { p with lastAccessed := some now }),
           { p with lastAccessed := some now }))
    ∧ (∀ st' q, loadProject st projectId now = .ok (st', q) →
        (alistLookup st' ("project_" ++ projectId) = some (.proj q))
        ∧ (∀ k, k ≠ "project_" ++ projectId → alistLookup st' k = alistLookup st k)
        ∧ q.id = p.id ∧ q.name = p.name ∧ q.createdAt = p.createdAt
        ∧ q.updatedAt = p.updatedAt ∧ q.duration = p.duration
        ∧ q.savedAt = p.savedAt ∧ q.thumbnail = p.thumbnail
        ∧ q.blobIds = p.blobIds ∧ q.bytes = p.bytes
        ∧ q.lastAccessed = some now) := by
  have heq : loadProject st projectId now =
      .ok (alistSet st ("project_" ++ projectId)
             (.proj { p with lastAccessed := some now }),
           { p with lastAccessed := some now }) := by
    simp [loadProject, h]
  refine ⟨heq, ?_⟩
  intro st' q hok
  rw [heq] at hok
  injection hok with hpair
  injection hpair with h1 h2
  subst h1
  subst h2
  refine ⟨alistLookup_set_self .., ?_, rfl, rfl, rfl, rfl, rfl, rfl, rfl, rfl, rfl, rfl⟩
  intro k hk
  exact alistLookup_set_ne st _ k _ hk

/-- Witness for C10 on a two-key store. -/
theorem load_project_stamps_last_accessed_witness :
    loadProject
      [("project_x", .proj { id := "x", name := "X", createdAt := 1, updatedAt := 2,
                             duration := 3 }),
       ("blob_x_0", .blob 1 4)] "x" 99 =
      .ok (alistSet
            [("project_x", .proj { id := "x", name := "X", createdAt := 1, updatedAt := 2,
                                   duration := 3 }),
             ("blob_x_0", .blob 1 4)] ("project_" ++ "x")
            (.proj { id := "x", name := "X", createdAt := 1, updatedAt := 2,
                     duration := 3, lastAccessed := some 99 }),
           { id := "x", name := "X", createdAt := 1, updatedAt := 2,
             duration := 3, lastAccessed := some 99 }) :=
  (load_project_stamps_last_accessed
    [("project_x", .proj { id := "x", name := "X", createdAt := 1, updatedAt := 2,
                           duration := 3 }),
     ("blob_x_0", .blob 1 4)] "x"
    { id := "x", name := "X", createdAt := 1, updatedAt := 2, duration := 3 }
    99 (by decide)).1
